import Mathlib

set_option linter.unusedVariables false

namespace UploadWorker

/-- Rate-limit entry stored per client identifier: a request count and the
window-start timestamp in epoch milliseconds (the values of rateLimitMap in
src/worker/src/index.ts). -/
structure RLEntry where
  count : Nat
  windowStart : Nat
deriving DecidableEq

/-- The in-memory rate-limit map, modelled as an association list from client
identifier to entry; JavaScript Map.get is lookup of the (unique) key and
Map.set replaces the entry at the key in place. -/
abbrev RLMap := List (String × RLEntry)

/-- Worker environment bindings (interface Env in src/worker/src/index.ts).
UPLOAD_API_KEY and ALLOWED_ORIGIN may be absent at runtime and the code checks
them with JavaScript truthiness, so they are modelled as Option String; the
IMAGE_BUCKET binding is an external dependency, modelled by the putResult
parameter of fetch. -/
structure Env where
  UPLOAD_API_KEY : Option String
  ALLOWED_ORIGIN : Option String
  R2_PUBLIC_URL : String
deriving DecidableEq

/-- A file part of a multipart form: its declared MIME type (File.type, which
the code reads as file.type) and its byte content. -/
structure FileData where
  fileType : String
  bytes : List Nat
deriving DecidableEq

/-- A value of a multipart form part: either a plain string part or a file
part (a File instance in the JavaScript code). -/
inductive FormValue where
  | string : String → FormValue
  | file : FileData → FormValue
deriving DecidableEq

/-- The incoming HTTP request, reduced to the parts the handler reads: the
method, the Origin, X-Upload-Api-Key and CF-Connecting-IP headers (none means
the header is absent), and the multipart body. formData = none models a body
on which request.formData() throws; some fd is the parsed list of parts in
order, where FormData.get returns the first part with the given name. -/
structure UploadRequest where
  method : String
  origin : Option String
  apiKey : Option String
  cfConnectingIp : Option String
  formData : Option (List (String × FormValue))
deriving DecidableEq

/-- A JSON value, covering the shapes the handler serialises with
JSON.stringify: strings and object literals with string keys in insertion
order. Responses carry the value itself rather than its serialisation. -/
inductive JValue where
  | str : String → JValue
  | obj : List (String × JValue) → JValue

/-- An HTTP response: status, headers in insertion order (the handler never
produces duplicate header names), and an optional JSON body (none models the
null body of the preflight response). -/
structure HttpResponse where
  status : Nat
  headers : List (String × String)
  body : Option JValue

/-- Maximum uploads per client identifier per window
(RATE_LIMIT_MAX in src/worker/src/index.ts). -/
def RATE_LIMIT_MAX : Nat := 20

/-- Length of the rate-limit window in milliseconds
(RATE_LIMIT_WINDOW_MS in src/worker/src/index.ts). -/
def RATE_LIMIT_WINDOW_MS : Nat := 60000

/-- Map.set on the association list: replaces the entry at the key if present,
otherwise appends a new one. -/
def rlSet : RLMap → String → RLEntry → RLMap
  | [], k, v => [(k, v)]
  | (k2, v2) :: rest, k, v =>
    if k2 = k then (k, v) :: rest else (k2, v2) :: rlSet rest k v

/-- isRateLimited from src/worker/src/index.ts. now is Date.now() at the call.
Returns the boolean result together with the rate-limit map after the call.
now - entry.windowStart is truncated Nat subtraction, which agrees with the
JavaScript comparison also when now < windowStart (a negative difference is
not greater than the window length). -/
def isRateLimited (m : RLMap) (ip : String) (now : Nat) : Bool × RLMap :=
  match m.lookup ip with
  | none => (false, rlSet m ip ⟨1, now⟩)
  | some entry =>
    if RATE_LIMIT_WINDOW_MS < now - entry.windowStart then
      (false, rlSet m ip ⟨1, now⟩)
    else if RATE_LIMIT_MAX ≤ entry.count then
      (true, m)
    else
      (false, rlSet m ip ⟨entry.count + 1, entry.windowStart⟩)

/-- JavaScript String.prototype.trim: removes leading and trailing whitespace
characters. Implemented on the character list so that it evaluates inside the
kernel; it agrees with the runtime trim on every configured origin value of
interest (URL-shaped strings and ordinary spacing). -/
def jsTrim (s : String) : String :=
  ⟨((s.data.dropWhile fun c => c.isWhitespace).reverse.dropWhile
      fun c => c.isWhitespace).reverse⟩

/-- JavaScript truthiness of an optional string: false for an absent value and
for the empty string. -/
def strTruthy : Option String → Bool
  | none => false
  | some s => s != ""

/-- getAllowedOrigin from src/worker/src/index.ts: the configured
ALLOWED_ORIGIN, trimmed, when truthy; otherwise the request Origin, or the
wildcard when the request has no Origin header. -/
def getAllowedOrigin (env : Env) (requestOrigin : Option String) : String :=
  match env.ALLOWED_ORIGIN.map jsTrim with
  | some c => if c = "" then requestOrigin.getD "*" else c
  | none => requestOrigin.getD "*"

/-- buildCorsHeaders from src/worker/src/index.ts. -/
def buildCorsHeaders (env : Env) (requestOrigin : Option String) : List (String × String) :=
  [("Access-Control-Allow-Origin", getAllowedOrigin env requestOrigin),
   ("Access-Control-Allow-Methods", "POST, OPTIONS"),
   ("Access-Control-Allow-Headers", "Content-Type, X-Upload-Api-Key"),
   ("Access-Control-Max-Age", "86400")]

/-- jsonResponse from src/worker/src/index.ts: a response whose headers are
Content-Type: application/json followed by the extra headers (the handler only
ever passes the CORS headers, which never collide with Content-Type), and
whose body is the JSON value handed to JSON.stringify. -/
def jsonResponse (body : JValue) (status : Nat) (extraHeaders : List (String × String)) :
    HttpResponse :=
  ⟨status, ("Content-Type", "application/json") :: extraHeaders, some body⟩

/-- ALLOWED_TYPES from src/worker/src/index.ts: the allowed image MIME types
and the file extension each maps to, in insertion order. -/
def ALLOWED_TYPES : List (String × String) :=
  [("image/jpeg", "jpg"), ("image/png", "png"), ("image/gif", "gif"),
   ("image/webp", "webp"), ("image/svg+xml", "svg")]

/-- env.R2_PUBLIC_URL.replace of the regex matching one trailing slash with
the empty string: drops a single trailing slash when present. Implemented on
the character list so that it evaluates inside the kernel. -/
def stripTrailingSlash (s : String) : String :=
  if s.data.getLast? = some '/' then ⟨s.data.dropLast⟩ else s

/-- The storage key generated for an upload: the template literal
uploads/Date.now()-crypto.randomUUID().ext of the source, with keyNow the
Date.now() value at key generation and uuid the random UUID. -/
def uploadKey (keyNow : Nat) (uuid : String) (ext : String) : String :=
  "uploads/" ++ toString keyNow ++ "-" ++ uuid ++ "." ++ ext

/-- The main request handler (the default export's fetch in
src/worker/src/index.ts). External effects are parameters: now is Date.now()
inside isRateLimited, keyNow is Date.now() at key generation, uuid is
crypto.randomUUID(), and putResult is the outcome of env.IMAGE_BUCKET.put
(error carries the backend error text, which the code only logs). Returns the
response together with the rate-limit map after the invocation. The source
binds corsHeaders, the isRateLimited result and the key to local constants;
all are pure, so their uses are inlined here. -/
def fetch (env : Env) (request : UploadRequest) (rateLimitMap : RLMap)
    (now keyNow : Nat) (uuid : String) (putResult : Except String Unit) :
    HttpResponse × RLMap :=
  if request.method = "OPTIONS" then
    (⟨204, buildCorsHeaders env request.origin, none⟩, rateLimitMap)
  else if request.method ≠ "POST" then
    (jsonResponse (JValue.obj [("error", JValue.str "Method not allowed")]) 405
      (buildCorsHeaders env request.origin), rateLimitMap)
  else if strTruthy (env.ALLOWED_ORIGIN.map jsTrim) = true ∧
      request.origin ≠ env.ALLOWED_ORIGIN.map jsTrim then
    (jsonResponse (JValue.obj [("error", JValue.str "Origin not allowed")]) 403
      (buildCorsHeaders env request.origin), rateLimitMap)
  else if strTruthy env.UPLOAD_API_KEY = false ∨ request.apiKey ≠ env.UPLOAD_API_KEY then
    (jsonResponse (JValue.obj [("error", JValue.str "Unauthorized")]) 401
      (buildCorsHeaders env request.origin), rateLimitMap)
  else if (isRateLimited rateLimitMap (request.cfConnectingIp.getD "unknown") now).1 = true then
    (jsonResponse
      (JValue.obj
        [("error", JValue.str "Too many requests. Please wait a minute and try again.")])
      429 (buildCorsHeaders env request.origin),
      (isRateLimited rateLimitMap (request.cfConnectingIp.getD "unknown") now).2)
  else
    match request.formData with
    | none =>
      (jsonResponse
        (JValue.obj
          [("error",
            JValue.str "Invalid request. Expected multipart/form-data with a \"file\" field.")])
        400 (buildCorsHeaders env request.origin),
        (isRateLimited rateLimitMap (request.cfConnectingIp.getD "unknown") now).2)
    | some formData =>
      match formData.lookup "file" with
      | none =>
        (jsonResponse
          (JValue.obj
            [("error",
              JValue.str "Invalid request. Expected multipart/form-data with a \"file\" field.")])
          400 (buildCorsHeaders env request.origin),
          (isRateLimited rateLimitMap (request.cfConnectingIp.getD "unknown") now).2)
      | some (FormValue.string _) =>
        (jsonResponse
          (JValue.obj
            [("error",
              JValue.str "Invalid request. Expected multipart/form-data with a \"file\" field.")])
          400 (buildCorsHeaders env request.origin),
          (isRateLimited rateLimitMap (request.cfConnectingIp.getD "unknown") now).2)
      | some (FormValue.file file) =>
        match ALLOWED_TYPES.lookup file.fileType with
        | none =>
          (jsonResponse
            (JValue.obj
              [("error",
                JValue.str ("Unsupported file type \"" ++ file.fileType ++
                  "\". Allowed types: " ++
                  String.intercalate ", " (ALLOWED_TYPES.map Prod.fst)))])
            400 (buildCorsHeaders env request.origin),
            (isRateLimited rateLimitMap (request.cfConnectingIp.getD "unknown") now).2)
        | some ext =>
          match putResult with
          | Except.error _ =>
            (jsonResponse
              (JValue.obj
                [("error", JValue.str "Upload to storage failed. Please try again.")])
              502 (buildCorsHeaders env request.origin),
              (isRateLimited rateLimitMap (request.cfConnectingIp.getD "unknown") now).2)
          | Except.ok _ =>
            (jsonResponse
              (JValue.obj
                [("url",
                  JValue.str (stripTrailingSlash env.R2_PUBLIC_URL ++ "/" ++
                    uploadKey keyNow uuid ext))])
              200 (buildCorsHeaders env request.origin),
              (isRateLimited rateLimitMap (request.cfConnectingIp.getD "unknown") now).2)

/-- Reads a response header by name (first occurrence, as header resolution
sees it; the handler never emits duplicate names). -/
def getHeader (resp : HttpResponse) (name : String) : Option String :=
  resp.headers.lookup name

/-- A POST request that passes the origin check and the API-key check, i.e.
one that reaches the rate-limiting stage of fetch. -/
def authedPost (env : Env) (request : UploadRequest) : Prop :=
  request.method = "POST" ∧
  ¬(strTruthy (env.ALLOWED_ORIGIN.map jsTrim) = true ∧
      request.origin ≠ env.ALLOWED_ORIGIN.map jsTrim) ∧
  ¬(strTruthy env.UPLOAD_API_KEY = false ∨ request.apiKey ≠ env.UPLOAD_API_KEY)

instance decidableAuthedPost (env : Env) (request : UploadRequest) :
    Decidable (authedPost env request) := by
  unfold authedPost
  infer_instance

/-- Repeated invocations of fetch with the same environment and request at
the listed times, threading the rate-limit map. -/
def runFetch (env : Env) (request : UploadRequest) (keyNow : Nat) (uuid : String)
    (putResult : Except String Unit) (m : RLMap) (times : List Nat) : RLMap :=
  times.foldl (fun acc t => (fetch env request acc t keyNow uuid putResult).2) m

/-- Looking up the key just set returns the value just set. -/
lemma lookup_rlSet_self (m : RLMap) (k : String) (v : RLEntry) :
    (rlSet m k v).lookup k = some v := by
  induction m with
  | nil => simp [rlSet, List.lookup]
  | cons hd t ih =>
    obtain ⟨k2, v2⟩ := hd
    by_cases hk : k2 = k
    · simp [rlSet, hk, List.lookup]
    · have hbeq : (k == k2) = false := by
        simp [Ne.symm hk]
      simp [rlSet, hk, List.lookup, hbeq, ih]

/-- Unfolding of the limiter when the identifier has no entry. -/
lemma isRateLimited_none (m : RLMap) (ip : String) (now : Nat)
    (hm : m.lookup ip = none) :
    isRateLimited m ip now = (false, rlSet m ip ⟨1, now⟩) := by
  unfold isRateLimited
  rw [hm]

/-- Unfolding of the limiter when the identifier has an entry. -/
lemma isRateLimited_entry (m : RLMap) (ip : String) (now c ws : Nat)
    (hm : m.lookup ip = some ⟨c, ws⟩) :
    isRateLimited m ip now =
      if RATE_LIMIT_WINDOW_MS < now - ws then (false, rlSet m ip ⟨1, now⟩)
      else if RATE_LIMIT_MAX ≤ c then (true, m)
      else (false, rlSet m ip ⟨c + 1, ws⟩) := by
  unfold isRateLimited
  rw [hm]

/-- When the limiter reports over-limit, it leaves the map untouched. -/
lemma isRateLimited_limited_snd (m : RLMap) (ip : String) (now : Nat)
    (h : (isRateLimited m ip now).1 = true) :
    (isRateLimited m ip now).2 = m := by
  cases hl : m.lookup ip with
  | none => rw [isRateLimited_none m ip now hl] at h; simp at h
  | some e =>
    rw [isRateLimited_entry m ip now e.count e.windowStart hl] at h ⊢
    split at h
    · simp at h
    · rename_i hw
      split at h
      · rename_i hc
        rw [if_neg hw, if_pos hc]
      · simp at h

/-- One limiter step from an in-window entry whose count is at most the cap:
the request is refused exactly when the counter had already reached the cap,
and afterwards the entry holds the incremented count capped at
RATE_LIMIT_MAX, with the window start unchanged. -/
lemma isRateLimited_step (m : RLMap) (ip : String) (now c ws : Nat)
    (hm : m.lookup ip = some ⟨c, ws⟩) (hc : c ≤ RATE_LIMIT_MAX)
    (hw : now - ws ≤ RATE_LIMIT_WINDOW_MS) :
    ((isRateLimited m ip now).1 = true ↔ RATE_LIMIT_MAX ≤ c) ∧
      ((isRateLimited m ip now).2).lookup ip = some ⟨min (c + 1) RATE_LIMIT_MAX, ws⟩ := by
  rw [isRateLimited_entry m ip now c ws hm, if_neg (Nat.not_lt.mpr hw)]
  by_cases hover : RATE_LIMIT_MAX ≤ c
  · rw [if_pos hover]
    refine ⟨by simp [hover], ?_⟩
    rw [hm]
    have hceq : c = RATE_LIMIT_MAX := Nat.le_antisymm hc hover
    rw [hceq, Nat.min_eq_right (Nat.le_succ _)]
  · rw [if_neg hover]
    refine ⟨by simp [hover], ?_⟩
    rw [lookup_rlSet_self]
    rw [Nat.min_eq_left (Nat.succ_le_of_lt (Nat.lt_of_not_le hover))]

/-- For a POST request that passes the origin and key checks, the rate-limit
map returned by fetch is exactly the map returned by isRateLimited. -/
lemma fetch_authed_snd (env : Env) (request : UploadRequest) (m : RLMap)
    (now keyNow : Nat) (uuid : String) (putResult : Except String Unit)
    (h : authedPost env request) :
    (fetch env request m now keyNow uuid putResult).2 =
      (isRateLimited m (request.cfConnectingIp.getD "unknown") now).2 := by
  unfold authedPost at h
  obtain ⟨h1, h2, h3⟩ := h
  unfold fetch
  rw [if_neg (by simp [h1]), if_neg (by simp [h1]), if_neg h2, if_neg h3]
  split
  all_goals try rfl
  all_goals split
  all_goals try rfl
  all_goals split
  all_goals try rfl
  all_goals split
  all_goals try rfl
  all_goals split
  all_goals rfl

/-- For a POST request that passes the origin and key checks and is refused by
the limiter, fetch answers 429 and leaves the map untouched. -/
lemma fetch_authed_limited (env : Env) (request : UploadRequest) (m : RLMap)
    (now keyNow : Nat) (uuid : String) (putResult : Except String Unit)
    (h : authedPost env request)
    (hlim : (isRateLimited m (request.cfConnectingIp.getD "unknown") now).1 = true) :
    (fetch env request m now keyNow uuid putResult).1.status = 429 ∧
      (fetch env request m now keyNow uuid putResult).2 = m := by
  have hsnd := isRateLimited_limited_snd m (request.cfConnectingIp.getD "unknown") now hlim
  unfold authedPost at h
  obtain ⟨h1, h2, h3⟩ := h
  unfold fetch
  rw [if_neg (by simp [h1]), if_neg (by simp [h1]), if_neg h2, if_neg h3, if_pos hlim]
  exact ⟨rfl, hsnd⟩

/-- For a POST request that passes the origin and key checks and is admitted
by the limiter, fetch proceeds to the later pipeline stages: the response is
200, 400 or 502, never 429. -/
lemma fetch_authed_not_limited_status (env : Env) (request : UploadRequest) (m : RLMap)
    (now keyNow : Nat) (uuid : String) (putResult : Except String Unit)
    (h : authedPost env request)
    (hlim : (isRateLimited m (request.cfConnectingIp.getD "unknown") now).1 = false) :
    (fetch env request m now keyNow uuid putResult).1.status = 200 ∨
      (fetch env request m now keyNow uuid putResult).1.status = 400 ∨
      (fetch env request m now keyNow uuid putResult).1.status = 502 := by
  unfold authedPost at h
  obtain ⟨h1, h2, h3⟩ := h
  unfold fetch
  rw [if_neg (by simp [h1]), if_neg (by simp [h1]), if_neg h2, if_neg h3,
    if_neg (by simp [hlim])]
  split
  all_goals try simp [jsonResponse]
  all_goals split
  all_goals try simp [jsonResponse]
  all_goals split
  all_goals try simp [jsonResponse]
  all_goals split
  all_goals simp [jsonResponse]

/-- Map evolution across repeated authed in-window invocations of fetch:
starting from an entry with count c (1 ≤ c ≤ RATE_LIMIT_MAX) and window start
ws, after further requests at times within the window the entry holds the
summed count capped at RATE_LIMIT_MAX and the window start is unchanged. -/
lemma runFetch_lookup (env : Env) (request : UploadRequest)
    (keyNow : Nat) (uuid : String) (putResult : Except String Unit)
    (h : authedPost env request) :
    ∀ (ts : List Nat) (m : RLMap) (c ws : Nat),
      m.lookup (request.cfConnectingIp.getD "unknown") = some ⟨c, ws⟩ →
      1 ≤ c → c ≤ RATE_LIMIT_MAX →
      (∀ t ∈ ts, t - ws ≤ RATE_LIMIT_WINDOW_MS) →
      (runFetch env request keyNow uuid putResult m ts).lookup
          (request.cfConnectingIp.getD "unknown") =
        some ⟨min (c + ts.length) RATE_LIMIT_MAX, ws⟩ := by
  intro ts
  induction ts with
  | nil =>
    intro m c ws hm h1 h2 hts
    simpa [runFetch, Nat.min_eq_left h2] using hm
  | cons t ts ih =>
    intro m c ws hm h1 h2 hts
    have hwt : t - ws ≤ RATE_LIMIT_WINDOW_MS := hts t (List.mem_cons_self t ts)
    have hstep := isRateLimited_step m (request.cfConnectingIp.getD "unknown") t c ws hm h2 hwt
    have hfold : runFetch env request keyNow uuid putResult m (t :: ts) =
        runFetch env request keyNow uuid putResult
          (fetch env request m t keyNow uuid putResult).2 ts := rfl
    have hge1 : 1 ≤ min (c + 1) RATE_LIMIT_MAX :=
      Nat.le_min.mpr ⟨Nat.le_succ_of_le h1, by decide⟩
    have hle : min (c + 1) RATE_LIMIT_MAX ≤ RATE_LIMIT_MAX := Nat.min_le_right _ _
    have hrest : ∀ u ∈ ts, u - ws ≤ RATE_LIMIT_WINDOW_MS :=
      fun u hu => hts u (List.mem_cons_of_mem t hu)
    have harith : min (min (c + 1) RATE_LIMIT_MAX + ts.length) RATE_LIMIT_MAX =
        min (c + (t :: ts).length) RATE_LIMIT_MAX := by
      simp only [List.length_cons]
      omega
    rw [hfold, fetch_authed_snd env request m t keyNow uuid putResult h,
      ih ((isRateLimited m (request.cfConnectingIp.getD "unknown") t).2)
        (min (c + 1) RATE_LIMIT_MAX) ws hstep.2 hge1 hle hrest, harith]

/-- Behaviour at the limiter boundary: on a map whose entry for the client
identifier holds count 19, an in-window authed request is admitted and the
pipeline continues (200, 400 or 502); the entry then holds count 20, and a
further in-window authed request is refused with 429 without changing the
map. -/
lemma fetch_at_boundary (env : Env) (request : UploadRequest) (M : RLMap)
    (t20 t21 keyNow : Nat) (uuid : String) (putResult : Except String Unit) (t0 : Nat)
    (hauth : authedPost env request)
    (hm : M.lookup (request.cfConnectingIp.getD "unknown") = some ⟨19, t0⟩)
    (h20 : t20 - t0 ≤ RATE_LIMIT_WINDOW_MS) (h21 : t21 - t0 ≤ RATE_LIMIT_WINDOW_MS) :
    ((fetch env request M t20 keyNow uuid putResult).1.status ≠ 429 ∧
      ((fetch env request M t20 keyNow uuid putResult).1.status = 200 ∨
        (fetch env request M t20 keyNow uuid putResult).1.status = 400 ∨
        (fetch env request M t20 keyNow uuid putResult).1.status = 502)) ∧
    ((fetch env request (fetch env request M t20 keyNow uuid putResult).2 t21 keyNow uuid
        putResult).1.status = 429 ∧
      (fetch env request (fetch env request M t20 keyNow uuid putResult).2 t21 keyNow uuid
        putResult).2 = (fetch env request M t20 keyNow uuid putResult).2) := by
  have hstep20 := isRateLimited_step M (request.cfConnectingIp.getD "unknown") t20 19 t0 hm
    (by decide) h20
  have hnotlim : (isRateLimited M (request.cfConnectingIp.getD "unknown") t20).1 = false := by
    cases hb : (isRateLimited M (request.cfConnectingIp.getD "unknown") t20).1 with
    | false => rfl
    | true => exact absurd (hstep20.1.mp hb) (by decide)
  have hstat := fetch_authed_not_limited_status env request M t20 keyNow uuid putResult hauth
    hnotlim
  have hne : (fetch env request M t20 keyNow uuid putResult).1.status ≠ 429 := by
    rcases hstat with h | h | h <;> rw [h] <;> decide
  have hm20 : ((fetch env request M t20 keyNow uuid putResult).2).lookup
      (request.cfConnectingIp.getD "unknown") = some ⟨20, t0⟩ := by
    rw [fetch_authed_snd env request M t20 keyNow uuid putResult hauth, hstep20.2,
      show min (19 + 1) RATE_LIMIT_MAX = 20 from by decide]
  have hstep21 := isRateLimited_step ((fetch env request M t20 keyNow uuid putResult).2)
    (request.cfConnectingIp.getD "unknown") t21 20 t0 hm20 (by decide) h21
  have hlim21 : (isRateLimited ((fetch env request M t20 keyNow uuid putResult).2)
      (request.cfConnectingIp.getD "unknown") t21).1 = true := hstep21.1.mpr (by decide)
  exact ⟨⟨hne, hstat⟩,
    fetch_authed_limited env request ((fetch env request M t20 keyNow uuid putResult).2) t21
      keyNow uuid putResult hauth hlim21⟩

/-- Claim C2: for any client identifier, after 20 authed requests within the
same 60-second window (one at the window start t0, then 18 more and a 20th,
all within 60000 ms of t0), the 20th request is not rate-limited and proceeds
to the later pipeline stages (status 200, 400 or 502, never 429), while the
21st request within the window is answered 429 and leaves the rate-limit map
(hence the counter) unchanged. -/
theorem spec_C2 (env : Env) (request : UploadRequest) (m0 : RLMap)
    (t0 : Nat) (ts : List Nat) (t20 t21 keyNow : Nat) (uuid : String)
    (putResult : Except String Unit)
    (hauth : authedPost env request)
    (hnone : m0.lookup (request.cfConnectingIp.getD "unknown") = none)
    (hlen : ts.length = 18)
    (hts : ∀ t ∈ ts, t - t0 ≤ RATE_LIMIT_WINDOW_MS)
    (h20 : t20 - t0 ≤ RATE_LIMIT_WINDOW_MS) (h21 : t21 - t0 ≤ RATE_LIMIT_WINDOW_MS) :
    ((fetch env request (runFetch env request keyNow uuid putResult m0 (t0 :: ts)) t20 keyNow
        uuid putResult).1.status ≠ 429 ∧
      ((fetch env request (runFetch env request keyNow uuid putResult m0 (t0 :: ts)) t20 keyNow
          uuid putResult).1.status = 200 ∨
        (fetch env request (runFetch env request keyNow uuid putResult m0 (t0 :: ts)) t20 keyNow
          uuid putResult).1.status = 400 ∨
        (fetch env request (runFetch env request keyNow uuid putResult m0 (t0 :: ts)) t20 keyNow
          uuid putResult).1.status = 502)) ∧
    ((fetch env request
        (fetch env request (runFetch env request keyNow uuid putResult m0 (t0 :: ts)) t20 keyNow
          uuid putResult).2 t21 keyNow uuid putResult).1.status = 429 ∧
      (fetch env request
        (fetch env request (runFetch env request keyNow uuid putResult m0 (t0 :: ts)) t20 keyNow
          uuid putResult).2 t21 keyNow uuid putResult).2 =
        (fetch env request (runFetch env request keyNow uuid putResult m0 (t0 :: ts)) t20 keyNow
          uuid putResult).2) := by
  have hstep0 : ((fetch env request m0 t0 keyNow uuid putResult).2).lookup
      (request.cfConnectingIp.getD "unknown") = some ⟨1, t0⟩ := by
    rw [fetch_authed_snd env request m0 t0 keyNow uuid putResult hauth,
      isRateLimited_none m0 (request.cfConnectingIp.getD "unknown") t0 hnone]
    exact lookup_rlSet_self m0 (request.cfConnectingIp.getD "unknown") ⟨1, t0⟩
  have hmin : min (1 + 18) RATE_LIMIT_MAX = 19 := by decide
  have hm19 : (runFetch env request keyNow uuid putResult m0 (t0 :: ts)).lookup
      (request.cfConnectingIp.getD "unknown") = some ⟨19, t0⟩ := by
    have hfold : runFetch env request keyNow uuid putResult m0 (t0 :: ts) =
        runFetch env request keyNow uuid putResult
          (fetch env request m0 t0 keyNow uuid putResult).2 ts := rfl
    rw [hfold,
      runFetch_lookup env request keyNow uuid putResult hauth ts
        (fetch env request m0 t0 keyNow uuid putResult).2 1 t0 hstep0 (Nat.le_refl 1)
        (by decide) hts,
      hlen, hmin]
  exact fetch_at_boundary env request
    (runFetch env request keyNow uuid putResult m0 (t0 :: ts)) t20 t21 keyNow uuid putResult
    t0 hauth hm19 h20 h21

/-- A fixed environment used to instantiate theorems at concrete inputs: a
configured secret, no configured origin, and a public bucket URL. -/
def envOk : Env := ⟨some "k", none, "https://pub.example"⟩

/-- A fixed authed upload request used to instantiate theorems at concrete
inputs: a POST carrying the secret, a client address and one PNG file part. -/
def reqOk : UploadRequest :=
  ⟨"POST", none, some "k", some "1.2.3.4", some [("file", FormValue.file ⟨"image/png", [1]⟩)]⟩

theorem spec_C2_witness :
    ((fetch envOk reqOk (runFetch envOk reqOk 0 "u" (Except.ok ()) []
        (0 :: List.replicate 18 0)) 1 0 "u" (Except.ok ())).1.status ≠ 429 ∧
      ((fetch envOk reqOk (runFetch envOk reqOk 0 "u" (Except.ok ()) []
          (0 :: List.replicate 18 0)) 1 0 "u" (Except.ok ())).1.status = 200 ∨
        (fetch envOk reqOk (runFetch envOk reqOk 0 "u" (Except.ok ()) []
          (0 :: List.replicate 18 0)) 1 0 "u" (Except.ok ())).1.status = 400 ∨
        (fetch envOk reqOk (runFetch envOk reqOk 0 "u" (Except.ok ()) []
          (0 :: List.replicate 18 0)) 1 0 "u" (Except.ok ())).1.status = 502)) ∧
    ((fetch envOk reqOk
        (fetch envOk reqOk (runFetch envOk reqOk 0 "u" (Except.ok ()) []
          (0 :: List.replicate 18 0)) 1 0 "u" (Except.ok ())).2 2 0 "u"
        (Except.ok ())).1.status = 429 ∧
      (fetch envOk reqOk
        (fetch envOk reqOk (runFetch envOk reqOk 0 "u" (Except.ok ()) []
          (0 :: List.replicate 18 0)) 1 0 "u" (Except.ok ())).2 2 0 "u"
        (Except.ok ())).2 =
        (fetch envOk reqOk (runFetch envOk reqOk 0 "u" (Except.ok ()) []
          (0 :: List.replicate 18 0)) 1 0 "u" (Except.ok ())).2) :=
  spec_C2 envOk reqOk [] 0 (List.replicate 18 0) 1 2 0 "u" (Except.ok ())
    (by decide) rfl rfl
    (fun t ht => by rw [List.eq_of_mem_replicate ht]; decide)
    (by decide) (by decide)

/-- Claim C3: for an identifier with an existing entry, when the current time
exceeds the window start by strictly more than 60000 ms the next request
resets the entry (count 1, window start refreshed to now) and is not
rate-limited; otherwise, within the window and under the limit, the count
increments and the window start is unchanged. -/
theorem spec_C3 (m : RLMap) (ip : String) (now c ws : Nat)
    (hm : m.lookup ip = some ⟨c, ws⟩) :
    (RATE_LIMIT_WINDOW_MS < now - ws →
      (isRateLimited m ip now).1 = false ∧
        ((isRateLimited m ip now).2).lookup ip = some ⟨1, now⟩) ∧
    (now - ws ≤ RATE_LIMIT_WINDOW_MS → c < RATE_LIMIT_MAX →
      (isRateLimited m ip now).1 = false ∧
        ((isRateLimited m ip now).2).lookup ip = some ⟨c + 1, ws⟩) := by
  constructor
  · intro hw
    rw [isRateLimited_entry m ip now c ws hm, if_pos hw]
    exact ⟨rfl, lookup_rlSet_self m ip ⟨1, now⟩⟩
  · intro hw hc
    rw [isRateLimited_entry m ip now c ws hm, if_neg (Nat.not_lt.mpr hw),
      if_neg (Nat.not_le.mpr hc)]
    exact ⟨rfl, lookup_rlSet_self m ip ⟨c + 1, ws⟩⟩

theorem spec_C3_witness :
    ((isRateLimited [("a", ⟨3, 0⟩)] "a" 70000).1 = false ∧
      ((isRateLimited [("a", ⟨3, 0⟩)] "a" 70000).2).lookup "a" = some ⟨1, 70000⟩) ∧
    ((isRateLimited [("a", ⟨3, 0⟩)] "a" 50000).1 = false ∧
      ((isRateLimited [("a", ⟨3, 0⟩)] "a" 50000).2).lookup "a" = some ⟨4, 0⟩) :=
  ⟨(spec_C3 [("a", ⟨3, 0⟩)] "a" 70000 3 0 (by decide)).1 (by decide),
    (spec_C3 [("a", ⟨3, 0⟩)] "a" 50000 3 0 (by decide)).2 (by decide) (by decide)⟩

/-- Claim C1, amended: for every POST request that passes the origin check, a
missing X-Upload-Api-Key header, a value different from the configured
secret, or an unconfigured (absent or empty) secret yields status 401,
regardless of the remaining headers and body content. -/
theorem spec_C1 (env : Env) (request : UploadRequest) (m : RLMap)
    (now keyNow : Nat) (uuid : String) (putResult : Except String Unit)
    (hm : request.method = "POST")
    (horig : strTruthy (env.ALLOWED_ORIGIN.map jsTrim) = false ∨
      request.origin = env.ALLOWED_ORIGIN.map jsTrim)
    (hkey : request.apiKey = none ∨ request.apiKey ≠ env.UPLOAD_API_KEY ∨
      strTruthy env.UPLOAD_API_KEY = false) :
    (fetch env request m now keyNow uuid putResult).1.status = 401 := by
  have horig2 : ¬(strTruthy (env.ALLOWED_ORIGIN.map jsTrim) = true ∧
      request.origin ≠ env.ALLOWED_ORIGIN.map jsTrim) := by
    rcases horig with hc | hc
    · intro hand
      rw [hc] at hand
      exact absurd hand.1 (by simp)
    · intro hand
      exact hand.2 hc
  have hkey2 : strTruthy env.UPLOAD_API_KEY = false ∨ request.apiKey ≠ env.UPLOAD_API_KEY := by
    rcases hkey with hk | hk | hk
    · by_cases ht : strTruthy env.UPLOAD_API_KEY = true
      · right
        cases hek : env.UPLOAD_API_KEY with
        | none => rw [hek] at ht; simp [strTruthy] at ht
        | some k => rw [hk]; simp
      · left
        simpa using ht
    · right
      exact hk
    · left
      exact hk
  unfold fetch
  rw [if_neg (by simp [hm]), if_neg (by simp [hm]), if_neg horig2, if_pos hkey2]
  rfl

theorem spec_C1_witness :
    (fetch ⟨some "secret", none, "https://pub.example"⟩
        ⟨"POST", none, some "wrong", some "1.1.1.1", none⟩
        [] 0 0 "u" (Except.ok ())).1.status = 401 :=
  spec_C1 ⟨some "secret", none, "https://pub.example"⟩
    ⟨"POST", none, some "wrong", some "1.1.1.1", none⟩ [] 0 0 "u" (Except.ok ())
    rfl (Or.inl rfl) (Or.inr (Or.inl (by decide)))

/-- Claim C1 as frozen is false: a request missing the X-Upload-Api-Key
header is not always answered 401 — with a configured allowed origin and a
mismatching Origin header, the origin check answers 403 first, so another
header does change the status. -/
theorem spec_C1_counterexample :
    ((⟨"POST", some "https://b.example", none, none, none⟩ : UploadRequest).apiKey = none ∧
      strTruthy (⟨some "secret", some "https://a.example", "https://pub.example"⟩ :
        Env).UPLOAD_API_KEY = true) ∧
    (fetch ⟨some "secret", some "https://a.example", "https://pub.example"⟩
        ⟨"POST", some "https://b.example", none, none, none⟩
        [] 0 0 "u" (Except.ok ())).1.status = 403 := by
  decide

example :
    (fetch ⟨some "sec", none, "https://pub.example"⟩
      ⟨"POST", none, some "sec", some "1.2.3.4",
        some [("file", FormValue.file ⟨"image/png", [7]⟩)]⟩
      [] 100 100 "abcd" (Except.ok ())).1.status = 200 := by decide

example :
    (fetch ⟨some "sec", none, "https://pub.example/"⟩
      ⟨"POST", none, some "sec", some "1.2.3.4",
        some [("file", FormValue.file ⟨"image/png", [7]⟩)]⟩
      [] 100 100 "abcd" (Except.ok ())).1.body =
      some (JValue.obj [("url", JValue.str "https://pub.example/uploads/100-abcd.png")]) := by
  rfl

example :
    (fetch ⟨some "sec", none, "https://pub.example"⟩
      ⟨"GET", none, some "sec", none, none⟩ [] 0 0 "u" (Except.ok ())).1.status = 405 := by
  decide

/-- Every response of fetch carries exactly the headers built by
buildCorsHeaders, possibly preceded by the JSON content type. -/
lemma fetch_headers_shape (env : Env) (request : UploadRequest) (m : RLMap)
    (now keyNow : Nat) (uuid : String) (putResult : Except String Unit) :
    (fetch env request m now keyNow uuid putResult).1.headers =
        buildCorsHeaders env request.origin ∨
      (fetch env request m now keyNow uuid putResult).1.headers =
        ("Content-Type", "application/json") :: buildCorsHeaders env request.origin := by
  unfold fetch
  repeat first
    | exact Or.inl rfl
    | exact Or.inr rfl
    | split

/-- Every response of fetch carries the four CORS headers, with
Access-Control-Allow-Origin as computed by getAllowedOrigin. -/
lemma fetch_cors_headers (env : Env) (request : UploadRequest) (m : RLMap)
    (now keyNow : Nat) (uuid : String) (putResult : Except String Unit) :
    getHeader (fetch env request m now keyNow uuid putResult).1
        "Access-Control-Allow-Origin" = some (getAllowedOrigin env request.origin) ∧
      getHeader (fetch env request m now keyNow uuid putResult).1
        "Access-Control-Allow-Methods" = some "POST, OPTIONS" ∧
      getHeader (fetch env request m now keyNow uuid putResult).1
        "Access-Control-Allow-Headers" = some "Content-Type, X-Upload-Api-Key" ∧
      getHeader (fetch env request m now keyNow uuid putResult).1
        "Access-Control-Max-Age" = some "86400" := by
  rcases fetch_headers_shape env request m now keyNow uuid putResult with hs | hs <;>
    refine ⟨?_, ?_, ?_, ?_⟩ <;> (unfold getHeader; rw [hs]; rfl)

/-- Every response of fetch with a failure status carries a JSON body of the
shape with a single error field. -/
lemma fetch_status_body (env : Env) (request : UploadRequest) (m : RLMap)
    (now keyNow : Nat) (uuid : String) (putResult : Except String Unit) :
    (fetch env request m now keyNow uuid putResult).1.status < 400 ∨
      ∃ msg, (fetch env request m now keyNow uuid putResult).1.body =
        some (JValue.obj [("error", JValue.str msg)]) := by
  unfold fetch
  repeat first
    | exact Or.inl (show (204 : Nat) < 400 by decide)
    | exact Or.inl (show (200 : Nat) < 400 by decide)
    | exact Or.inr ⟨_, rfl⟩
    | split

/-- Claim C9: every response the handler produces — the 204 preflight, the
200 success and every failure status — carries the four CORS headers, and
every failure response's body is JSON of the shape with a single error
field. -/
theorem spec_C9 (env : Env) (request : UploadRequest) (m : RLMap)
    (now keyNow : Nat) (uuid : String) (putResult : Except String Unit) :
    (getHeader (fetch env request m now keyNow uuid putResult).1
        "Access-Control-Allow-Origin" = some (getAllowedOrigin env request.origin) ∧
      getHeader (fetch env request m now keyNow uuid putResult).1
        "Access-Control-Allow-Methods" = some "POST, OPTIONS" ∧
      getHeader (fetch env request m now keyNow uuid putResult).1
        "Access-Control-Allow-Headers" = some "Content-Type, X-Upload-Api-Key" ∧
      getHeader (fetch env request m now keyNow uuid putResult).1
        "Access-Control-Max-Age" = some "86400") ∧
    (400 ≤ (fetch env request m now keyNow uuid putResult).1.status →
      ∃ msg, (fetch env request m now keyNow uuid putResult).1.body =
        some (JValue.obj [("error", JValue.str msg)])) := by
  refine ⟨fetch_cors_headers env request m now keyNow uuid putResult, fun hst => ?_⟩
  rcases fetch_status_body env request m now keyNow uuid putResult with hlt | hbody
  · omega
  · exact hbody

theorem spec_C9_witness :
    (getHeader (fetch envOk ⟨"GET", none, none, none, none⟩ [] 0 0 "u" (Except.ok ())).1
        "Access-Control-Allow-Origin" = some "*" ∧
      getHeader (fetch envOk ⟨"GET", none, none, none, none⟩ [] 0 0 "u" (Except.ok ())).1
        "Access-Control-Allow-Methods" = some "POST, OPTIONS" ∧
      getHeader (fetch envOk ⟨"GET", none, none, none, none⟩ [] 0 0 "u" (Except.ok ())).1
        "Access-Control-Allow-Headers" = some "Content-Type, X-Upload-Api-Key" ∧
      getHeader (fetch envOk ⟨"GET", none, none, none, none⟩ [] 0 0 "u" (Except.ok ())).1
        "Access-Control-Max-Age" = some "86400") ∧
    (∃ msg, (fetch envOk ⟨"GET", none, none, none, none⟩ [] 0 0 "u" (Except.ok ())).1.body =
      some (JValue.obj [("error", JValue.str msg)])) :=
  ⟨(spec_C9 envOk ⟨"GET", none, none, none, none⟩ [] 0 0 "u" (Except.ok ())).1,
    (spec_C9 envOk ⟨"GET", none, none, none, none⟩ [] 0 0 "u" (Except.ok ())).2 (by decide)⟩

/-- Claim C8: when ALLOWED_ORIGIN is unset or trims to the empty string, the
Access-Control-Allow-Origin header of every response equals the request's
Origin header verbatim, or the wildcard when the request supplies none. -/
theorem spec_C8 (env : Env) (request : UploadRequest) (m : RLMap)
    (now keyNow : Nat) (uuid : String) (putResult : Except String Unit)
    (hcfg : env.ALLOWED_ORIGIN = none ∨ env.ALLOWED_ORIGIN.map jsTrim = some "") :
    getHeader (fetch env request m now keyNow uuid putResult).1
      "Access-Control-Allow-Origin" = some (request.origin.getD "*") := by
  rw [(fetch_cors_headers env request m now keyNow uuid putResult).1]
  rcases hcfg with hc | hc
  · simp [getAllowedOrigin, hc]
  · simp [getAllowedOrigin, hc]

theorem spec_C8_witness :
    getHeader (fetch ⟨some "k", none, "https://pub.example"⟩
        ⟨"POST", some "https://caller.example", some "k", none, none⟩
        [] 0 0 "u" (Except.ok ())).1 "Access-Control-Allow-Origin" =
      some "https://caller.example" :=
  spec_C8 ⟨some "k", none, "https://pub.example"⟩
    ⟨"POST", some "https://caller.example", some "k", none, none⟩
    [] 0 0 "u" (Except.ok ()) (Or.inl rfl)

/-- Claim C10: when ALLOWED_ORIGIN trims to a non-empty string, the
Access-Control-Allow-Origin header of every response equals that trimmed
configured value regardless of the request's Origin header — including on the
204 preflight response and on the 403 origin-mismatch response itself. -/
theorem spec_C10 (env : Env) (request : UploadRequest) (m : RLMap)
    (now keyNow : Nat) (uuid : String) (putResult : Except String Unit) (s : String)
    (hcfg : env.ALLOWED_ORIGIN = some s) (hne : jsTrim s ≠ "") :
    getHeader (fetch env request m now keyNow uuid putResult).1
        "Access-Control-Allow-Origin" = some (jsTrim s) ∧
      (request.method = "OPTIONS" →
        (fetch env request m now keyNow uuid putResult).1.status = 204) ∧
      (request.method = "POST" → request.origin ≠ some (jsTrim s) →
        (fetch env request m now keyNow uuid putResult).1.status = 403) := by
  refine ⟨?_, ?_, ?_⟩
  · rw [(fetch_cors_headers env request m now keyNow uuid putResult).1]
    simp [getAllowedOrigin, hcfg, hne]
  · intro hopt
    unfold fetch
    rw [if_pos hopt]
  · intro hpost homis
    unfold fetch
    rw [if_neg (by simp [hpost]), if_neg (by simp [hpost]),
      if_pos ⟨by simp [hcfg, strTruthy, hne], by rw [hcfg]; simpa using homis⟩]
    rfl

theorem spec_C10_witness :
    (getHeader (fetch ⟨some "k", some " https://a.example ", "https://pub.example"⟩
        ⟨"OPTIONS", some "https://b.example", none, none, none⟩
        [] 0 0 "u" (Except.ok ())).1 "Access-Control-Allow-Origin" =
          some "https://a.example" ∧
      (fetch ⟨some "k", some " https://a.example ", "https://pub.example"⟩
        ⟨"OPTIONS", some "https://b.example", none, none, none⟩
        [] 0 0 "u" (Except.ok ())).1.status = 204) ∧
    (getHeader (fetch ⟨some "k", some " https://a.example ", "https://pub.example"⟩
        ⟨"POST", some "https://b.example", none, none, none⟩
        [] 0 0 "u" (Except.ok ())).1 "Access-Control-Allow-Origin" =
          some "https://a.example" ∧
      (fetch ⟨some "k", some " https://a.example ", "https://pub.example"⟩
        ⟨"POST", some "https://b.example", none, none, none⟩
        [] 0 0 "u" (Except.ok ())).1.status = 403) :=
  ⟨⟨(spec_C10 ⟨some "k", some " https://a.example ", "https://pub.example"⟩
      ⟨"OPTIONS", some "https://b.example", none, none, none⟩
      [] 0 0 "u" (Except.ok ()) " https://a.example " rfl (by decide)).1,
    (spec_C10 ⟨some "k", some " https://a.example ", "https://pub.example"⟩
      ⟨"OPTIONS", some "https://b.example", none, none, none⟩
      [] 0 0 "u" (Except.ok ()) " https://a.example " rfl (by decide)).2.1 rfl⟩,
  ⟨(spec_C10 ⟨some "k", some " https://a.example ", "https://pub.example"⟩
      ⟨"POST", some "https://b.example", none, none, none⟩
      [] 0 0 "u" (Except.ok ()) " https://a.example " rfl (by decide)).1,
    (spec_C10 ⟨some "k", some " https://a.example ", "https://pub.example"⟩
      ⟨"POST", some "https://b.example", none, none, none⟩
      [] 0 0 "u" (Except.ok ()) " https://a.example " rfl (by decide)).2.2 rfl
      (by decide)⟩⟩

/-- Claim C4: for every request reaching the type-validation stage whose
file's declared MIME type is not in the allow-list, the response status is
400 and the error message names the offending type and enumerates exactly the
five allowed types. -/
theorem spec_C4 (env : Env) (request : UploadRequest) (m : RLMap)
    (now keyNow : Nat) (uuid : String) (putResult : Except String Unit)
    (fd : List (String × FormValue)) (f : FileData)
    (hauth : authedPost env request)
    (hrl : (isRateLimited m (request.cfConnectingIp.getD "unknown") now).1 = false)
    (hfd : request.formData = some fd)
    (hfile : fd.lookup "file" = some (FormValue.file f))
    (htype : ALLOWED_TYPES.lookup f.fileType = none) :
    (fetch env request m now keyNow uuid putResult).1.status = 400 ∧
      (fetch env request m now keyNow uuid putResult).1.body =
        some (JValue.obj [("error", JValue.str ("Unsupported file type \"" ++ f.fileType ++
          "\". Allowed types: image/jpeg, image/png, image/gif, image/webp, image/svg+xml"))]) := by
  unfold authedPost at hauth
  obtain ⟨h1, h2, h3⟩ := hauth
  unfold fetch
  rw [if_neg (by simp [h1]), if_neg (by simp [h1]), if_neg h2, if_neg h3,
    if_neg (by simp [hrl])]
  simp only [hfd, hfile, htype]
  refine ⟨rfl, ?_⟩
  rw [show String.intercalate ", " (ALLOWED_TYPES.map Prod.fst) =
      "image/jpeg, image/png, image/gif, image/webp, image/svg+xml" from by decide,
    String.append_assoc]
  rfl

theorem spec_C4_witness :
    (fetch envOk ⟨"POST", none, some "k", some "1.2.3.4",
        some [("file", FormValue.file ⟨"application/pdf", [1]⟩)]⟩
        [] 0 0 "u" (Except.ok ())).1.status = 400 ∧
      (fetch envOk ⟨"POST", none, some "k", some "1.2.3.4",
        some [("file", FormValue.file ⟨"application/pdf", [1]⟩)]⟩
        [] 0 0 "u" (Except.ok ())).1.body =
        some (JValue.obj [("error", JValue.str
          "Unsupported file type \"application/pdf\". Allowed types: image/jpeg, image/png, image/gif, image/webp, image/svg+xml")]) :=
  spec_C4 envOk ⟨"POST", none, some "k", some "1.2.3.4",
      some [("file", FormValue.file ⟨"application/pdf", [1]⟩)]⟩
    [] 0 0 "u" (Except.ok ()) [("file", FormValue.file ⟨"application/pdf", [1]⟩)]
    ⟨"application/pdf", [1]⟩ (by decide) (by decide) rfl (by decide) (by decide)

/-- Claim C5: every successful upload answers 200 and its JSON body's url
field is the configured public base URL with a single trailing slash
stripped, then one separator, then the generated key
uploads/keyNow-uuid.ext, where ext is the extension the allow-list maps from
the file's declared MIME type. -/
theorem spec_C5 (env : Env) (request : UploadRequest) (m : RLMap)
    (now keyNow : Nat) (uuid : String)
    (fd : List (String × FormValue)) (f : FileData) (ext : String)
    (hauth : authedPost env request)
    (hrl : (isRateLimited m (request.cfConnectingIp.getD "unknown") now).1 = false)
    (hfd : request.formData = some fd)
    (hfile : fd.lookup "file" = some (FormValue.file f))
    (htype : ALLOWED_TYPES.lookup f.fileType = some ext) :
    (fetch env request m now keyNow uuid (Except.ok ())).1.status = 200 ∧
      (fetch env request m now keyNow uuid (Except.ok ())).1.body =
        some (JValue.obj [("url", JValue.str (stripTrailingSlash env.R2_PUBLIC_URL ++ "/" ++
          ("uploads/" ++ toString keyNow ++ "-" ++ uuid ++ "." ++ ext)))]) := by
  unfold authedPost at hauth
  obtain ⟨h1, h2, h3⟩ := hauth
  unfold fetch
  rw [if_neg (by simp [h1]), if_neg (by simp [h1]), if_neg h2, if_neg h3,
    if_neg (by simp [hrl])]
  simp only [hfd, hfile, htype]
  exact ⟨rfl, rfl⟩

theorem spec_C5_witness :
    (fetch ⟨some "k", none, "https://pub.example/"⟩ reqOk [] 7 7 "uu" (Except.ok ())).1.status =
        200 ∧
      (fetch ⟨some "k", none, "https://pub.example/"⟩ reqOk [] 7 7 "uu"
          (Except.ok ())).1.body =
        some (JValue.obj [("url", JValue.str "https://pub.example/uploads/7-uu.png")]) :=
  spec_C5 ⟨some "k", none, "https://pub.example/"⟩ reqOk [] 7 7 "uu"
    [("file", FormValue.file ⟨"image/png", [1]⟩)] ⟨"image/png", [1]⟩ "png"
    (by decide) (by decide) rfl (by decide) (by decide)

/-- Claim C6, amended: for every POST request reaching the payload-parsing
stage, when the body is unparseable as a multipart form, or has no part named
file, or the first part named file is not a file-like object, the response is
400 with the fixed invalid-request message; the first file part is what gets
uploaded, and additional parts (including duplicate file parts) are
ignored rather than rejected. -/
theorem spec_C6 (env : Env) (request : UploadRequest) (m : RLMap)
    (now keyNow : Nat) (uuid : String) (putResult : Except String Unit)
    (hauth : authedPost env request)
    (hrl : (isRateLimited m (request.cfConnectingIp.getD "unknown") now).1 = false)
    (hbad : request.formData = none ∨
      (∃ fd, request.formData = some fd ∧ fd.lookup "file" = none) ∨
      (∃ fd s, request.formData = some fd ∧ fd.lookup "file" = some (FormValue.string s))) :
    (fetch env request m now keyNow uuid putResult).1.status = 400 ∧
      (fetch env request m now keyNow uuid putResult).1.body =
        some (JValue.obj [("error",
          JValue.str "Invalid request. Expected multipart/form-data with a \"file\" field.")]) := by
  unfold authedPost at hauth
  obtain ⟨h1, h2, h3⟩ := hauth
  unfold fetch
  rw [if_neg (by simp [h1]), if_neg (by simp [h1]), if_neg h2, if_neg h3,
    if_neg (by simp [hrl])]
  rcases hbad with hb | ⟨fd, hfd, hnone⟩ | ⟨fd, s, hfd, hstr⟩
  · simp only [hb]
    exact ⟨rfl, rfl⟩
  · simp only [hfd, hnone]
    exact ⟨rfl, rfl⟩
  · simp only [hfd, hstr]
    exact ⟨rfl, rfl⟩

theorem spec_C6_witness :
    (fetch envOk ⟨"POST", none, some "k", some "1.2.3.4", none⟩ [] 0 0 "u"
        (Except.ok ())).1.status = 400 ∧
      (fetch envOk ⟨"POST", none, some "k", some "1.2.3.4", none⟩ [] 0 0 "u"
          (Except.ok ())).1.body =
        some (JValue.obj [("error",
          JValue.str "Invalid request. Expected multipart/form-data with a \"file\" field.")]) :=
  spec_C6 envOk ⟨"POST", none, some "k", some "1.2.3.4", none⟩ [] 0 0 "u" (Except.ok ())
    (by decide) (by decide) (Or.inl rfl)

/-- Claim C6 as frozen is false: a multipart body with two parts named file
is not "exactly one part named file", yet the handler accepts it (the first
part is used) and answers 200, not 400. -/
theorem spec_C6_counterexample :
    (fetch ⟨some "secret", none, "https://pub.example"⟩
        ⟨"POST", none, some "secret", some "9.9.9.9",
          some [("file", FormValue.file ⟨"image/png", [1]⟩),
            ("file", FormValue.file ⟨"image/gif", [2]⟩)]⟩
        [] 5 5 "uuid1" (Except.ok ())).1.status = 200 ∧
      (fetch ⟨some "secret", none, "https://pub.example"⟩
        ⟨"POST", none, some "secret", some "9.9.9.9",
          some [("file", FormValue.file ⟨"image/png", [1]⟩),
            ("file", FormValue.file ⟨"image/gif", [2]⟩)]⟩
        [] 5 5 "uuid1" (Except.ok ())).1.status ≠ 400 := by
  decide

/-- Claim C7: on every otherwise-valid request on which the storage put
fails, whatever the backend error text is, the response status is 502 and
the JSON error body is the fixed generic message, which in particular does
not depend on (or contain) the backend error text. -/
theorem spec_C7 (env : Env) (request : UploadRequest) (m : RLMap)
    (now keyNow : Nat) (uuid : String) (err : String)
    (fd : List (String × FormValue)) (f : FileData) (ext : String)
    (hauth : authedPost env request)
    (hrl : (isRateLimited m (request.cfConnectingIp.getD "unknown") now).1 = false)
    (hfd : request.formData = some fd)
    (hfile : fd.lookup "file" = some (FormValue.file f))
    (htype : ALLOWED_TYPES.lookup f.fileType = some ext) :
    (fetch env request m now keyNow uuid (Except.error err)).1.status = 502 ∧
      (fetch env request m now keyNow uuid (Except.error err)).1.body =
        some (JValue.obj [("error",
          JValue.str "Upload to storage failed. Please try again.")]) := by
  unfold authedPost at hauth
  obtain ⟨h1, h2, h3⟩ := hauth
  unfold fetch
  rw [if_neg (by simp [h1]), if_neg (by simp [h1]), if_neg h2, if_neg h3,
    if_neg (by simp [hrl])]
  simp only [hfd, hfile, htype]
  exact ⟨rfl, rfl⟩

theorem spec_C7_witness :
    (fetch envOk reqOk [] 0 0 "u" (Except.error "R2 quota exceeded")).1.status = 502 ∧
      (fetch envOk reqOk [] 0 0 "u" (Except.error "R2 quota exceeded")).1.body =
        some (JValue.obj [("error",
          JValue.str "Upload to storage failed. Please try again.")]) :=
  spec_C7 envOk reqOk [] 0 0 "u" "R2 quota exceeded"
    [("file", FormValue.file ⟨"image/png", [1]⟩)] ⟨"image/png", [1]⟩ "png"
    (by decide) (by decide) rfl (by decide) (by decide)

end UploadWorker
